import Mathlib

/-!
Verification of the `JVAE` joint variational auto-encoder core
(`scvi/models/jvae.py`), shallowly embedded over exact rationals.

Tensors are modelled as `List (List ℚ)` (rows = cells, columns = genes or
latent dimensions); per-cell column vectors of shape `(n, 1)` are modelled
as `List ℚ`.  The external collaborators (the multi-head encoder, the
per-head library encoders, the multi-head decoder, `torch.exp`/`log`/`sqrt`,
the analytic Gaussian KL, and the likelihood functions) are black boxes per
the design, so they appear as fields of a `Collab` record and the theorems
quantify over them.  Python exceptions are modelled with `Except String`;
list indexing with a `None` index (a `TypeError` in Python) becomes an
explicit error value.  Out-of-range indexing that Python would reject is
modelled with `getD` defaults; every theorem that depends on an indexed
value carries the corresponding bounds hypothesis, matching the spec's
precondition that `mode` is a valid dataset index.
-/

namespace JVAEModel

/-- A tensor of shape (cells, width): one inner list per cell. -/
abbrev Mat := List (List ℚ)

/-- A per-cell column vector, i.e. a tensor of shape (cells, 1). -/
abbrev Vec := List ℚ

/-- Configuration and owned parameters of the `JVAE` module, as stored by
`JVAE.__init__`.  The owned dispersion parameter `px_r` has a shape that
depends on the dispersion mode: `px_r_vec` is the per-gene vector used by
mode "gene", `px_r_mat` the (genes x categories) matrix used by
"gene-batch" / "gene-label"; no parameter exists for "gene-cell". -/
structure JVAE where
  n_input_list : List Nat
  total_genes : Nat
  indices_mappings : List (List Nat)
  reconstruction_losses : List String
  model_library_bools : List Bool
  n_batch : Nat
  n_labels : Nat
  dispersion : String
  log_variational : Bool
  px_r_vec : Vec
  px_r_mat : Mat

/-- The external collaborators consumed by the core, all black boxes:
`z_encoder` is the multi-head encoder `(x, head) -> (qz_m, qz_v, z)`;
`l_encoders head x` is the per-head library encoder returning
`(ql_m, ql_v, library)` as per-cell scalars; `decoder` is the multi-head
decoder `(z, head, library, dispersion, batch_index, y) ->
(px_scale, px_r, px_rate, px_dropout)` over the full shared vocabulary;
`texp`, `tlog`, `tsqrt` stand for `torch.exp/log/sqrt` applied elementwise;
`klNormal m1 s1 m2 s2` is the analytic KL between `Normal(m1, s1)` and
`Normal(m2, s2)`; `log_zinb` / `log_nb` are the likelihood functions
returning one value per cell (summed over genes internally);
`poissonLogProb rate value` is `Poisson(rate).log_prob(value)`. -/
structure Collab where
  z_encoder : Mat → Nat → Mat × Mat × Mat
  l_encoders : Nat → Mat → Vec × Vec × Vec
  decoder : Mat → Nat → Vec → String → Option (List Nat) → Option (List Nat) →
    Mat × Mat × Mat × Mat
  texp : ℚ → ℚ
  tlog : ℚ → ℚ
  tsqrt : ℚ → ℚ
  klNormal : ℚ → ℚ → ℚ → ℚ → ℚ
  log_zinb : Mat → Mat → Mat → Mat → Vec
  log_nb : Mat → Mat → Mat → Vec
  poissonLogProb : ℚ → ℚ → ℚ

/-- Column gather `row[mapping]` (numpy fancy indexing of one row). -/
def gatherCols (row : Vec) (mapping : List Nat) : Vec :=
  mapping.map (fun j => row.getD j 0)

/-- One row of the renormalization
`px_scale / px_scale[:, mapping].sum(dim=1).view(-1, 1)`. -/
def renormRow (row : Vec) (mapping : List Nat) : Vec :=
  row.map (fun v => v / (gatherCols row mapping).sum)

/-- `F.linear(one_hot(idx, n_cat), W)`: with `W : (genes x n_cat)`, the row
produced for a cell with category `c` is the `c`-th column of `W`.
A `None` index raises in Python (`one_hot` cannot take it); that code path
is never reached by a call with a well-formed covariate, and is modelled
by the empty tensor. -/
def oneHotLinear (idx : Option (List Nat)) (W : Mat) : Mat :=
  match idx with
  | some is => is.map (fun c => W.map (fun wrow => wrow.getD c 0))
  | none => []

/-- The row of a possibly broadcast (1, G) or (N, G) tensor seen by cell
`i` when the tensor meets an (N, G) tensor elementwise (torch broadcasting
over the cell axis). -/
def rowAt (m : Mat) (i : Nat) : Vec :=
  if m.length = 1 then m.headD [] else m.getD i []

/-- `JVAE.encode` (jvae.py lines 264-285): optional `log(1 + x)` transform,
multi-head encoding, then either the mode's library encoder (flag true) or
the deterministic `log(sum(x, dim=1))` on the raw input (flag false, with
`ql_m`/`ql_v` absent). -/
def encode (M : JVAE) (C : Collab) (x : Mat) (mode : Nat) :
    Mat × Mat × Mat × Option Vec × Option Vec × Vec :=
  let x1 := if M.log_variational then x.map (fun row => row.map (fun v => C.tlog (1 + v))) else x
  let e := C.z_encoder x1 mode
  if M.model_library_bools.getD mode false then
    let l := C.l_encoders mode x1
    (e.1, e.2.1, e.2.2, some l.1, some l.2.1, l.2.2)
  else
    (e.1, e.2.1, e.2.2, none, none, x.map (fun row => C.tlog row.sum))

/-- `JVAE.decode` (jvae.py lines 287-312): delegate to the decoder,
resolve `px_r` by dispersion mode and exponentiate it, renormalize
`px_scale` over the mode's index mapping, and recompute
`px_rate = px_scale * exp(library)`. -/
def decode (M : JVAE) (C : Collab) (z : Mat) (mode : Nat) (library : Vec)
    (batch_index y : Option (List Nat)) : Mat × Mat × Mat × Mat :=
  let raw := C.decoder z mode library M.dispersion batch_index y
  let px_r1 :=
    if M.dispersion = "gene-label" then oneHotLinear y M.px_r_mat
    else if M.dispersion = "gene-batch" then oneHotLinear batch_index M.px_r_mat
    else if M.dispersion = "gene" then [M.px_r_vec]
    else raw.2.1
  let px_r := px_r1.map (fun row => row.map C.texp)
  let mapping := M.indices_mappings.getD mode []
  let px_scale := raw.1.map (fun row => renormRow row mapping)
  let px_rate := List.zipWith (fun row l => row.map (fun v => v * C.texp l)) px_scale library
  (px_scale, px_r, px_rate, raw.2.2.2)

/-- `JVAE.reconstruction_loss` (jvae.py lines 247-262): dispatch on the
mode's registered loss kind; any kind other than "zinb" / "nb" / "poisson"
leaves the initial `None` in place. -/
def reconstruction_loss (M : JVAE) (C : Collab)
    (x px_rate px_r px_dropout : Mat) (mode : Nat) : Option Vec :=
  let kind := M.reconstruction_losses.getD mode ""
  if kind = "zinb" then some ((C.log_zinb x px_rate px_r px_dropout).map (fun v => -v))
  else if kind = "nb" then some ((C.log_nb x px_rate px_r).map (fun v => -v))
  else if kind = "poisson" then
    some (List.zipWith (fun xrow raterow =>
      -(List.zipWith C.poissonLogProb raterow xrow).sum) x px_rate)
  else none

/-- The per-cell z KL term of `forward` (jvae.py lines 358-362):
`kl(Normal(qz_m, sqrt(qz_v)), Normal(0, 1)).sum(dim=1)`. -/
def klZvec (C : Collab) (qz_m qz_v : Mat) : Vec :=
  List.zipWith (fun mrow vrow =>
    (List.zipWith (fun mv vv => C.klNormal mv (C.tsqrt vv) 0 1) mrow vrow).sum) qz_m qz_v

/-- The per-cell library KL of the modelled-library branch (jvae.py lines
365-368): `kl(Normal(ql_m, sqrt(ql_v)), Normal(local_l_mean,
sqrt(local_l_var)))` on (cells, 1) tensors, so the `.sum(dim=1)` is the
single column value. -/
def klLvec (C : Collab) (qlm qlv llm llv : Vec) : Vec :=
  List.zipWith (fun p q => C.klNormal p.1 (C.tsqrt p.2) q.1 (C.tsqrt q.2))
    (List.zipWith (fun a b => (a, b)) qlm qlv)
    (List.zipWith (fun a b => (a, b)) llm llv)

/-- The library KL term as computed in `forward` (jvae.py lines 364-370):
the analytic KL when the mode models the library size, otherwise
`torch.zeros_like(kl_divergence_z)`. -/
def klLibrary (M : JVAE) (C : Collab) (x : Mat) (llm llv : Vec) (mode : Nat) : Vec :=
  let e := encode M C x mode
  if M.model_library_bools.getD mode false then
    klLvec C (e.2.2.2.1.getD []) (e.2.2.2.2.1.getD []) llm llv
  else (klZvec C e.1 e.2.1).map (fun _ => 0)

/-- The decode step performed inside `forward` (jvae.py lines 342-345):
decode the *sampled* `z` and the encoder-produced `library`. -/
def forwardDecode (M : JVAE) (C : Collab) (x : Mat)
    (batch_index y : Option (List Nat)) (mode : Nat) : Mat × Mat × Mat × Mat :=
  let e := encode M C x mode
  decode M C e.2.2.1 mode e.2.2.2.2.2 batch_index y

/-- The body of `JVAE.forward` after mode resolution (jvae.py lines
342-372): encode, decode, gather the decoded tensors at the mode's index
mapping, reconstruction loss, and the two KL terms.  The returned KL total
is `kl_divergence_l + kl_divergence_z`. -/
def forwardResolved (M : JVAE) (C : Collab) (x : Mat) (llm llv : Vec)
    (batch_index y : Option (List Nat)) (mode : Nat) : Option Vec × Vec :=
  let e := encode M C x mode
  let d := forwardDecode M C x batch_index y mode
  let mapping := M.indices_mappings.getD mode []
  let rl := reconstruction_loss M C x
    (d.2.2.1.map (fun r => gatherCols r mapping))
    (d.2.1.map (fun r => gatherCols r mapping))
    (d.2.2.2.map (fun r => gatherCols r mapping)) mode
  let kl_z := klZvec C e.1 e.2.1
  let kl_l := klLibrary M C x llm llv mode
  (rl, List.zipWith (fun a b => a + b) kl_l kl_z)

/-- `JVAE.forward` (jvae.py lines 314-372) with its mode resolution (lines
336-340): an omitted mode defaults to 0 when exactly one dataset is
registered and otherwise raises. -/
def forward (M : JVAE) (C : Collab) (x : Mat) (llm llv : Vec)
    (batch_index y : Option (List Nat)) (mode : Option Nat) :
    Except String (Option Vec × Vec) :=
  match mode with
  | none =>
    if M.n_input_list.length = 1 then
      Except.ok (forwardResolved M C x llm llv batch_index y 0)
    else Except.error "Must provide a mode"
  | some m => Except.ok (forwardResolved M C x llm llv batch_index y m)

/-- The body of `JVAE.sample_from_posterior_z` after mode resolution
(jvae.py lines 156-159). -/
def sampleZResolved (M : JVAE) (C : Collab) (x : Mat) (mode : Nat)
    (deterministic : Bool) : Mat :=
  let e := encode M C x mode
  if deterministic then e.1 else e.2.2.1

/-- `JVAE.sample_from_posterior_z` (jvae.py lines 141-159), with its mode
resolution: an omitted mode defaults to 0 when exactly one dataset is
registered and otherwise raises. -/
def sample_from_posterior_z (M : JVAE) (C : Collab) (x : Mat)
    (mode : Option Nat) (deterministic : Bool) : Except String Mat :=
  match mode with
  | none =>
    if M.n_input_list.length = 1 then
      Except.ok (sampleZResolved M C x 0 deterministic)
    else Except.error "Must provide a mode when having multiple datasets"
  | some m => Except.ok (sampleZResolved M C x m deterministic)

/-- `JVAE.sample_from_posterior_l` (jvae.py lines 161-175): no mode
resolution at all — the possibly-`None` mode goes straight into `encode`,
where Python raises a `TypeError` on the `None` head / list index. -/
def sample_from_posterior_l (M : JVAE) (C : Collab) (x : Mat)
    (mode : Option Nat) (deterministic : Bool) : Except String Vec :=
  match mode with
  | none => Except.error "TypeError: list indices must be integers, not NoneType"
  | some m =>
    let e := encode M C x m
    Except.ok (if deterministic then e.2.2.2.1.getD e.2.2.2.2.2 else e.2.2.2.2.2)

/-- `JVAE.sample_rate` (jvae.py lines 214-245): encode with `mode`, force
`z := qz_m` and (when present) `library := ql_m` if deterministic, decode
through `decode_mode` (defaulting to `mode`), return `px_rate`. -/
def sample_rate (M : JVAE) (C : Collab) (x : Mat) (mode : Nat)
    (batch_index y : Option (List Nat)) (deterministic : Bool)
    (decode_mode : Option Nat) : Mat :=
  let dm := decode_mode.getD mode
  let e := encode M C x mode
  let z1 := if deterministic then e.1 else e.2.2.1
  let lib1 := if deterministic then e.2.2.2.1.getD e.2.2.2.2.2 else e.2.2.2.2.2
  (decode M C z1 dm lib1 batch_index y).2.2.1

/-- `JVAE.get_sample_rate` (jvae.py lines 211-212): the vae-style wrapper
`get_sample_rate(self, x, batch_index, *_, **__)` — every extra positional
or keyword argument is swallowed and `sample_rate(x, 0, batch_index)` is
called with its defaults (`y=None`, `deterministic=False`,
`decode_mode=None`). -/
def get_sample_rate (M : JVAE) (C : Collab) (x : Mat)
    (batch_index : Option (List Nat)) (_extra_args : List Mat)
    (_extra_kwargs : List (String × Mat)) : Mat :=
  sample_rate M C x 0 batch_index none false none

/-! ### Concrete instances used to exercise the definitions -/

/-- A two-dataset model with disjoint gene panels over a shared vocabulary
of 7 genes (the scenario of the spec), mode 0 with a deterministic library
and mode 1 with a modelled one. -/
def demoModel : JVAE where
  n_input_list := [3, 4]
  total_genes := 7
  indices_mappings := [[0, 1, 2], [3, 4, 5, 6]]
  reconstruction_losses := ["poisson", "nb"]
  model_library_bools := [false, true]
  n_batch := 2
  n_labels := 3
  dispersion := "gene-batch"
  log_variational := true
  px_r_vec := [1, 2, 3, 4, 5, 6, 7]
  px_r_mat := [[0, 1], [1, 0], [2, 1], [0, 0], [1, 1], [2, 0], [0, 2]]

/-- A single-dataset model (mode defaulting scenario). -/
def demoModelSingle : JVAE where
  n_input_list := [3]
  total_genes := 3
  indices_mappings := [[0, 1, 2]]
  reconstruction_losses := ["poisson"]
  model_library_bools := [false]
  n_batch := 0
  n_labels := 0
  dispersion := "gene"
  log_variational := false
  px_r_vec := [1, 2, 3]
  px_r_mat := []

/-- A single-dataset model whose registered loss kind is none of "zinb",
"nb", "poisson". -/
def demoModelBadLoss : JVAE :=
  { demoModelSingle with reconstruction_losses := ["gaussian"] }

/-- Concrete black-box collaborators for one cell: the encoder samples
`z = [[1, 2]]` away from its mean `qz_m = [[0, 0]]`, and the decoder's raw
scale row depends on `z` (entry `g` is `sum z + g + 1`). -/
def demoCollab : Collab where
  z_encoder := fun _x _m => ([[0, 0]], [[1, 1]], [[1, 2]])
  l_encoders := fun _m _x => ([2], [1], [3])
  decoder := fun z _m _lib _disp _b _y =>
    (z.map (fun zr =>
      [zr.sum + 1, zr.sum + 2, zr.sum + 3, zr.sum + 4, zr.sum + 5, zr.sum + 6, zr.sum + 7]),
     z.map (fun _ => [1, 1, 1, 1, 1, 1, 1]),
     z.map (fun _ => [9, 9, 9, 9, 9, 9, 9]),
     z.map (fun _ => [0, 0, 0, 0, 0, 0, 0]))
  texp := fun q => |q| + 1
  tlog := fun q => q - 1
  tsqrt := fun q => q
  klNormal := fun m1 s1 m2 s2 => (m1 - m2) + (s1 - s2)
  log_zinb := fun x _ _ _ => x.map List.sum
  log_nb := fun x _ _ => x.map List.sum
  poissonLogProb := fun r v => r - v

/-- The same collaborators but with a degenerate (mean-returning) encoder:
the sampled `z` coincides with `qz_m`. -/
def demoCollabDet : Collab :=
  { demoCollab with z_encoder := fun _x _m => ([[1, 2]], [[1, 1]], [[1, 2]]) }

/-! ### Helper lemmas -/

theorem getD_map_div (r : Vec) (s : ℚ) (j : Nat) :
    (r.map (fun v => v / s)).getD j 0 = r.getD j 0 / s := by
  induction r generalizing j with
  | nil => simp
  | cons a t ih =>
    cases j with
    | zero => simp
    | succ n => simpa using ih n

theorem gatherCols_map_div (r : Vec) (mapping : List Nat) (s : ℚ) :
    gatherCols (r.map (fun v => v / s)) mapping
      = (gatherCols r mapping).map (fun v => v / s) := by
  induction mapping with
  | nil => rfl
  | cons j t ih =>
    show (r.map fun v => v / s).getD j 0 :: gatherCols (r.map fun v => v / s) t
        = (r.getD j 0 / s) :: (gatherCols r t).map fun v => v / s
    rw [getD_map_div, ih]

theorem sum_map_div (l : Vec) (s : ℚ) :
    (l.map (fun v => v / s)).sum = l.sum / s := by
  induction l with
  | nil => simp
  | cons a t ih => simp [ih, add_div]

theorem renormRow_gather_sum (r : Vec) (mapping : List Nat)
    (h : (gatherCols r mapping).sum ≠ 0) :
    (gatherCols (renormRow r mapping) mapping).sum = 1 := by
  unfold renormRow
  rw [gatherCols_map_div, sum_map_div, div_self h]

theorem getD_map_of_lt {α β : Type} (f : α → β) (l : List α) (i : Nat)
    (d : β) (d2 : α) (h : i < l.length) :
    (l.map f).getD i d = f (l.getD i d2) := by
  induction l generalizing i with
  | nil => simp at h
  | cons a t ih =>
    cases i with
    | zero => rfl
    | succ n => simpa using ih n (by simpa using Nat.lt_of_succ_lt_succ h)

/-! ### Claims -/

/-- C1: for every mode, the `px_scale` returned by `decode` is renormalized
per cell by the sum of the raw scale gathered at that mode's index-mapping
columns, so the renormalized values gathered at those columns sum to 1 per
cell (whenever the gathered raw sum is nonzero; in exact arithmetic the
tolerance is exact).  The normalization of one mode only reads that mode's
own mapping, so with disjoint panels the two modes' normalizations are
independent (the witness checks both modes of the two-dataset scenario). -/
theorem decode_px_scale_mapping_sum_one
    (M : JVAE) (C : Collab) (z : Mat) (mode : Nat) (library : Vec)
    (b y : Option (List Nat)) (i : Nat)
    (hi : i < (C.decoder z mode library M.dispersion b y).1.length)
    (hs : (gatherCols ((C.decoder z mode library M.dispersion b y).1.getD i [])
        (M.indices_mappings.getD mode [])).sum ≠ 0) :
    (gatherCols ((decode M C z mode library b y).1.getD i [])
        (M.indices_mappings.getD mode [])).sum = 1 := by
  have hscale : (decode M C z mode library b y).1
      = (C.decoder z mode library M.dispersion b y).1.map
          (fun row => renormRow row (M.indices_mappings.getD mode [])) := rfl
  rw [hscale, getD_map_of_lt _ _ i [] [] hi]
  exact renormRow_gather_sum _ _ hs

/-- Witness for C1 at the two-dataset disjoint-panel scenario: both modes'
gathered `px_scale` sums are 1 for the same shared 7-wide output. -/
theorem decode_px_scale_mapping_sum_one_witness :
    (gatherCols ((decode demoModel demoCollab [[0, 0]] 0 [5] (some [0]) none).1.getD 0 [])
        (demoModel.indices_mappings.getD 0 [])).sum = 1 ∧
    (gatherCols ((decode demoModel demoCollab [[0, 0]] 1 [5] (some [0]) none).1.getD 0 [])
        (demoModel.indices_mappings.getD 1 [])).sum = 1 :=
  ⟨decode_px_scale_mapping_sum_one demoModel demoCollab [[0, 0]] 0 [5] (some [0]) none 0
      (by decide) (by norm_num [demoModel, demoCollab, gatherCols]),
   decode_px_scale_mapping_sum_one demoModel demoCollab [[0, 0]] 1 [5] (some [0]) none 0
      (by decide) (by norm_num [demoModel, demoCollab, gatherCols])⟩

/-- C2: the `px_rate` returned by `decode` is the renormalized `px_scale`
multiplied elementwise, per cell, by `exp(library)` with the library value
supplied to `decode`; and the decoder's raw rate output is discarded —
replacing the decoder by any decoder that agrees on the scale, raw
dispersion and dropout outputs (but may return an arbitrary raw rate)
leaves `decode`'s entire result unchanged. -/
theorem decode_px_rate_recomputed
    (M : JVAE) (C : Collab) (z : Mat) (mode : Nat) (library : Vec)
    (b y : Option (List Nat)) :
    (decode M C z mode library b y).2.2.1
      = List.zipWith (fun row l => row.map (fun v => v * C.texp l))
          (decode M C z mode library b y).1 library ∧
    ∀ D : Mat → Nat → Vec → String → Option (List Nat) → Option (List Nat) →
        Mat × Mat × Mat × Mat,
      (D z mode library M.dispersion b y).1
          = (C.decoder z mode library M.dispersion b y).1 →
      (D z mode library M.dispersion b y).2.1
          = (C.decoder z mode library M.dispersion b y).2.1 →
      (D z mode library M.dispersion b y).2.2.2
          = (C.decoder z mode library M.dispersion b y).2.2.2 →
      decode M { C with decoder := D } z mode library b y
        = decode M C z mode library b y := by
  refine ⟨rfl, fun D h1 h2 h3 => ?_⟩
  simp only [decode, h1, h2, h3]

/-- Witness for C2: a decoder whose raw rate is 77 everywhere instead of 9
yields the same `decode` output, and the rate equation holds concretely. -/
theorem decode_px_rate_recomputed_witness :
    (decode demoModel demoCollab [[0, 0]] 0 [5] (some [0]) none).2.2.1
      = List.zipWith (fun row l => row.map (fun v => v * demoCollab.texp l))
          (decode demoModel demoCollab [[0, 0]] 0 [5] (some [0]) none).1 [5] ∧
    decode demoModel
        { demoCollab with
          decoder := fun z m lib disp bb yy =>
            let r := demoCollab.decoder z m lib disp bb yy
            (r.1, r.2.1, z.map (fun _ => [77, 77, 77, 77, 77, 77, 77]), r.2.2.2) }
        [[0, 0]] 0 [5] (some [0]) none
      = decode demoModel demoCollab [[0, 0]] 0 [5] (some [0]) none :=
  ⟨(decode_px_rate_recomputed demoModel demoCollab [[0, 0]] 0 [5] (some [0]) none).1,
   (decode_px_rate_recomputed demoModel demoCollab [[0, 0]] 0 [5] (some [0]) none).2
      _ rfl rfl rfl⟩

/-- C3: for a mode whose library-modeling flag is false, `encode` leaves
`ql_m` and `ql_v` absent and sets `library = log(sum(x, dim=1))` on the raw
untransformed input — whatever the `log_variational` flag is, since the
`log(1 + x)` transform only feeds the encoders; and `ql_m`, `ql_v` are
populated exactly when the flag is true. -/
theorem encode_deterministic_library
    (M : JVAE) (C : Collab) (x : Mat) (mode : Nat)
    (hm : mode < M.model_library_bools.length) :
    (M.model_library_bools.get ⟨mode, hm⟩ = false →
       (encode M C x mode).2.2.2.1 = none ∧
       (encode M C x mode).2.2.2.2.1 = none ∧
       (encode M C x mode).2.2.2.2.2 = x.map (fun row => C.tlog row.sum)) ∧
    (M.model_library_bools.get ⟨mode, hm⟩ = true →
       (encode M C x mode).2.2.2.1.isSome ∧ (encode M C x mode).2.2.2.2.1.isSome) := by
  have hgd : M.model_library_bools.getD mode false
      = M.model_library_bools.get ⟨mode, hm⟩ := by
    rw [List.getD_eq_getElem?_getD, List.getElem?_eq_getElem hm]
    rfl
  constructor
  · intro h
    have hflag : M.model_library_bools.getD mode false = false := by rw [hgd, h]
    simp only [encode, hflag]
    simp
  · intro h
    have hflag : M.model_library_bools.getD mode false = true := by rw [hgd, h]
    simp only [encode, hflag]
    simp

/-- Witness for C3: mode 0 of the demo model (flag false) has absent
`ql_m` and the deterministic log-total library; mode 1 (flag true) has
`ql_m` populated. -/
theorem encode_deterministic_library_witness :
    (encode demoModel demoCollab [[1, 2, 3]] 0).2.2.2.1 = none ∧
    (encode demoModel demoCollab [[1, 2, 3]] 0).2.2.2.2.2
      = ([[1, 2, 3]] : Mat).map (fun row => demoCollab.tlog row.sum) ∧
    (encode demoModel demoCollab [[1, 2, 3, 4]] 1).2.2.2.1.isSome :=
  ⟨((encode_deterministic_library demoModel demoCollab [[1, 2, 3]] 0 (by decide)).1 rfl).1,
   ((encode_deterministic_library demoModel demoCollab [[1, 2, 3]] 0 (by decide)).1 rfl).2.2,
   ((encode_deterministic_library demoModel demoCollab [[1, 2, 3, 4]] 1 (by decide)).2 rfl).1⟩

/-- C4: `forward` and `sample_from_posterior_z` resolve an omitted mode to
dataset 0 when exactly one dataset is registered, and fail with the
configuration error when several datasets are registered — the error is
returned for every collaborator assignment, i.e. before any encoding can
contribute. -/
theorem forward_mode_resolution
    (M : JVAE) (C : Collab) (x : Mat) (llm llv : Vec)
    (b y : Option (List Nat)) (d : Bool) :
    (M.n_input_list.length = 1 →
       forward M C x llm llv b y none
         = Except.ok (forwardResolved M C x llm llv b y 0) ∧
       sample_from_posterior_z M C x none d
         = Except.ok (sampleZResolved M C x 0 d)) ∧
    (2 ≤ M.n_input_list.length →
       forward M C x llm llv b y none = Except.error "Must provide a mode" ∧
       sample_from_posterior_z M C x none d
         = Except.error "Must provide a mode when having multiple datasets") := by
  refine ⟨fun h => ?_, fun h => ?_⟩
  · simp [forward, sample_from_posterior_z, h]
  · have hne : M.n_input_list.length ≠ 1 := by omega
    simp [forward, sample_from_posterior_z, hne]

/-- Witness for C4: the single-dataset demo model defaults to mode 0, the
two-dataset demo model errors. -/
theorem forward_mode_resolution_witness :
    forward demoModelSingle demoCollab [[1, 2, 3]] [0] [1] none none none
      = Except.ok (forwardResolved demoModelSingle demoCollab [[1, 2, 3]] [0] [1] none none 0) ∧
    sample_from_posterior_z demoModel demoCollab [[1, 2, 3]] none false
      = Except.error "Must provide a mode when having multiple datasets" :=
  ⟨((forward_mode_resolution demoModelSingle demoCollab [[1, 2, 3]] [0] [1]
      none none false).1 (by decide)).1,
   ((forward_mode_resolution demoModel demoCollab [[1, 2, 3]] [0] [1]
      none none false).2 (by decide)).2⟩

theorem rowAt_map_congr (g : Nat → Vec) (bs : List Nat) (i j : Nat)
    (hi : i < bs.length) (hj : j < bs.length) (hij : bs.getD i 0 = bs.getD j 0) :
    rowAt (bs.map g) i = rowAt (bs.map g) j := by
  unfold rowAt
  by_cases h1 : (bs.map g).length = 1
  · simp [h1]
  · simp only [h1, if_false]
    rw [getD_map_of_lt g bs i [] 0 hi, getD_map_of_lt g bs j [] 0 hj, hij]

/-- C5: after `decode`, `px_r` is the elementwise exponential of the
resolved log-space dispersion (hence positive when `exp` is positive), and
its per-cell dependence follows the fixed dispersion mode: "gene" gives
the same broadcast row to every cell; "gene-batch" gives identical rows to
cells sharing a `batch_index`; "gene-label" to cells sharing `y`;
"gene-cell" exponentiates the decoder-supplied raw dispersion unchanged. -/
theorem decode_px_r_dispersion
    (M : JVAE) (C : Collab) (z : Mat) (mode : Nat) (library : Vec)
    (b y : Option (List Nat)) (hexp : ∀ q, 0 < C.texp q) :
    (∀ row ∈ (decode M C z mode library b y).2.1, ∀ v ∈ row, 0 < v) ∧
    (M.dispersion = "gene" →
       ∀ i j, rowAt (decode M C z mode library b y).2.1 i
         = rowAt (decode M C z mode library b y).2.1 j) ∧
    (M.dispersion = "gene-batch" → ∀ bs, b = some bs →
       ∀ i j, i < bs.length → j < bs.length → bs.getD i 0 = bs.getD j 0 →
       rowAt (decode M C z mode library b y).2.1 i
         = rowAt (decode M C z mode library b y).2.1 j) ∧
    (M.dispersion = "gene-label" → ∀ ys, y = some ys →
       ∀ i j, i < ys.length → j < ys.length → ys.getD i 0 = ys.getD j 0 →
       rowAt (decode M C z mode library b y).2.1 i
         = rowAt (decode M C z mode library b y).2.1 j) ∧
    (M.dispersion = "gene-cell" →
       (decode M C z mode library b y).2.1
         = (C.decoder z mode library M.dispersion b y).2.1.map
             (fun r => r.map C.texp)) := by
  have hform : (decode M C z mode library b y).2.1
      = (if M.dispersion = "gene-label" then oneHotLinear y M.px_r_mat
         else if M.dispersion = "gene-batch" then oneHotLinear b M.px_r_mat
         else if M.dispersion = "gene" then [M.px_r_vec]
         else (C.decoder z mode library M.dispersion b y).2.1).map
        (fun row => row.map C.texp) := rfl
  refine ⟨?_, ?_, ?_, ?_, ?_⟩
  · intro row hrow v hv
    rw [hform] at hrow
    rcases List.mem_map.1 hrow with ⟨row0, _, rfl⟩
    rcases List.mem_map.1 hv with ⟨u, _, rfl⟩
    exact hexp u
  · intro hd i j
    simp [rowAt, hform, hd]
  · intro hd bs hb i j hi hj hij
    subst hb
    have hrepr : (decode M C z mode library (some bs) y).2.1
        = bs.map (fun c => (M.px_r_mat.map (fun w => w.getD c 0)).map C.texp) := by
      rw [hform]
      simp [hd, oneHotLinear, List.map_map, Function.comp]
    rw [hrepr]
    exact rowAt_map_congr _ bs i j hi hj hij
  · intro hd ys hy i j hi hj hij
    subst hy
    have hrepr : (decode M C z mode library b (some ys)).2.1
        = ys.map (fun c => (M.px_r_mat.map (fun w => w.getD c 0)).map C.texp) := by
      rw [hform]
      simp [hd, oneHotLinear, List.map_map, Function.comp]
    rw [hrepr]
    exact rowAt_map_congr _ ys i j hi hj hij
  · intro hd
    rw [hform]
    simp [hd]

/-- Witness for C5: with the demo model's "gene-batch" dispersion, two
cells sharing batch 1 see the same `px_r` row. -/
theorem decode_px_r_dispersion_witness :
    rowAt (decode demoModel demoCollab [[0, 0], [1, 1]] 0 [5, 5] (some [1, 1]) none).2.1 0
      = rowAt (decode demoModel demoCollab [[0, 0], [1, 1]] 0 [5, 5] (some [1, 1]) none).2.1 1 :=
  (decode_px_r_dispersion demoModel demoCollab [[0, 0], [1, 1]] 0 [5, 5]
      (some [1, 1]) none
      (fun q => add_pos_of_nonneg_of_pos (abs_nonneg q) one_pos)).2.2.1
    rfl [1, 1] rfl 0 1 (by decide) (by decide) (by decide)

theorem zipWith_add_map_zero (l : Vec) :
    List.zipWith (fun a b => a + b) (l.map fun _ => (0 : ℚ)) l = l := by
  induction l with
  | nil => rfl
  | cons a t ih =>
    show (0 + a) :: List.zipWith (fun a b => a + b) (t.map fun _ => (0 : ℚ)) t = a :: t
    rw [zero_add, ih]

/-- C6: in `forward`, when the mode's library flag is false the library KL
term is a list of zeros of the same length as the per-cell z KL term (an
actual tensor, not an absent value) and the returned KL total equals the z
KL exactly; when the flag is true it is the analytic Gaussian KL between
`Normal(ql_m, sqrt(ql_v))` and `Normal(local_l_mean, sqrt(local_l_var))`
per cell, and the total is its elementwise sum with the z KL. -/
theorem forward_kl_library_term
    (M : JVAE) (C : Collab) (x : Mat) (llm llv : Vec)
    (b y : Option (List Nat)) (mode : Nat)
    (hm : mode < M.model_library_bools.length) :
    (M.model_library_bools.get ⟨mode, hm⟩ = false →
       klLibrary M C x llm llv mode
         = (klZvec C (encode M C x mode).1 (encode M C x mode).2.1).map (fun _ => 0) ∧
       (klLibrary M C x llm llv mode).length
         = (klZvec C (encode M C x mode).1 (encode M C x mode).2.1).length ∧
       (forwardResolved M C x llm llv b y mode).2
         = klZvec C (encode M C x mode).1 (encode M C x mode).2.1) ∧
    (M.model_library_bools.get ⟨mode, hm⟩ = true →
       ∀ qlm qlv, (encode M C x mode).2.2.2.1 = some qlm →
         (encode M C x mode).2.2.2.2.1 = some qlv →
         klLibrary M C x llm llv mode = klLvec C qlm qlv llm llv ∧
         (forwardResolved M C x llm llv b y mode).2
           = List.zipWith (fun a b => a + b) (klLvec C qlm qlv llm llv)
               (klZvec C (encode M C x mode).1 (encode M C x mode).2.1)) := by
  have hgd : M.model_library_bools.getD mode false
      = M.model_library_bools.get ⟨mode, hm⟩ := by
    rw [List.getD_eq_getElem?_getD, List.getElem?_eq_getElem hm]
    rfl
  have hfr : (forwardResolved M C x llm llv b y mode).2
      = List.zipWith (fun a b => a + b) (klLibrary M C x llm llv mode)
          (klZvec C (encode M C x mode).1 (encode M C x mode).2.1) := rfl
  constructor
  · intro h
    have hflag : M.model_library_bools.getD mode false = false := by rw [hgd, h]
    have hzero : klLibrary M C x llm llv mode
        = (klZvec C (encode M C x mode).1 (encode M C x mode).2.1).map (fun _ => 0) := by
      simp only [klLibrary, hflag]
      simp
    refine ⟨hzero, by rw [hzero]; simp, ?_⟩
    rw [hfr, hzero, zipWith_add_map_zero]
  · intro h qlm qlv h1 h2
    have hflag : M.model_library_bools.getD mode false = true := by rw [hgd, h]
    have hkl : klLibrary M C x llm llv mode = klLvec C qlm qlv llm llv := by
      simp only [klLibrary, hflag]
      rw [if_pos trivial, h1, h2]
      rfl
    exact ⟨hkl, by rw [hfr, hkl]⟩

/-- Witness for C6: mode 0 of the demo model (flag false) yields a KL
total equal to the z KL, mode 1 (flag true) yields the analytic library
KL term. -/
theorem forward_kl_library_term_witness :
    (forwardResolved demoModel demoCollab [[1, 2, 3]] [0] [1] (some [0]) none 0).2
      = klZvec demoCollab (encode demoModel demoCollab [[1, 2, 3]] 0).1
          (encode demoModel demoCollab [[1, 2, 3]] 0).2.1 ∧
    klLibrary demoModel demoCollab [[1, 2, 3, 4]] [0] [1] 1
      = klLvec demoCollab [2] [1] [0] [1] :=
  ⟨((forward_kl_library_term demoModel demoCollab [[1, 2, 3]] [0] [1]
      (some [0]) none 0 (by decide)).1 rfl).2.2,
   ((forward_kl_library_term demoModel demoCollab [[1, 2, 3, 4]] [0] [1]
      (some [0]) none 1 (by decide)).2 rfl [2] [1] rfl rfl).1⟩

/-- Counterexample to C7 as stated: `forward`'s internal decode step uses
the *sampled* `z` (and the sampled `library`), not `qz_m`, so with an
encoder whose sample differs from its mean and a decoder that reads `z`,
the deterministic `sample_rate` differs from `forward`'s internal
`px_rate` at this concrete input. -/
theorem sample_rate_forward_counterexample :
    sample_rate demoModel demoCollab [[1, 2, 3]] 0 (some [0]) none true (some 0)
      ≠ (forwardDecode demoModel demoCollab [[1, 2, 3]] (some [0]) none 0).2.2.1 := by
  norm_num [sample_rate, forwardDecode, encode, decode, renormRow, gatherCols,
    demoModel, demoCollab]

/-- C7 amended: `sample_rate` with `deterministic=True` and
`decode_mode=mode` equals the `px_rate` of `forward`'s internal decode
step whenever the encoder's sampled `z` coincides with `qz_m` and, if the
mode models the library, the sampled `library` coincides with `ql_m`
(`forward` itself always decodes the sampled values). -/
theorem sample_rate_forward_deterministic
    (M : JVAE) (C : Collab) (x : Mat) (mode : Nat) (b y : Option (List Nat))
    (hz : (encode M C x mode).2.2.1 = (encode M C x mode).1)
    (hl : ∀ q, (encode M C x mode).2.2.2.1 = some q →
      (encode M C x mode).2.2.2.2.2 = q) :
    sample_rate M C x mode b y true (some mode)
      = (forwardDecode M C x b y mode).2.2.1 := by
  have hlib : (encode M C x mode).2.2.2.1.getD (encode M C x mode).2.2.2.2.2
      = (encode M C x mode).2.2.2.2.2 := by
    cases hq : (encode M C x mode).2.2.2.1 with
    | none => rfl
    | some q => simpa using (hl q hq).symm
  have key : sample_rate M C x mode b y true (some mode)
      = (decode M C (encode M C x mode).1 mode
          ((encode M C x mode).2.2.2.1.getD (encode M C x mode).2.2.2.2.2) b y).2.2.1 := rfl
  have key2 : (forwardDecode M C x b y mode).2.2.1
      = (decode M C (encode M C x mode).2.2.1 mode
          (encode M C x mode).2.2.2.2.2 b y).2.2.1 := rfl
  rw [key, key2, hz, hlib]

/-- Witness for the amended C7: with the mean-returning encoder the two
pipelines agree. -/
theorem sample_rate_forward_deterministic_witness :
    sample_rate demoModel demoCollabDet [[1, 2, 3]] 0 (some [0]) none true (some 0)
      = (forwardDecode demoModel demoCollabDet [[1, 2, 3]] (some [0]) none 0).2.2.1 :=
  sample_rate_forward_deterministic demoModel demoCollabDet [[1, 2, 3]] 0 (some [0]) none
    rfl (fun _ hq => nomatch hq)

/-- C8: a registered reconstruction-loss kind other than "zinb", "nb",
"poisson" makes `reconstruction_loss` silently return the absent value
`None`, and consequently `forward`'s reconstruction component is absent. -/
theorem reconstruction_loss_unknown_kind
    (M : JVAE) (C : Collab) (x px_rate px_r px_dropout : Mat)
    (llm llv : Vec) (b y : Option (List Nat)) (mode : Nat)
    (h1 : M.reconstruction_losses.getD mode "" ≠ "zinb")
    (h2 : M.reconstruction_losses.getD mode "" ≠ "nb")
    (h3 : M.reconstruction_losses.getD mode "" ≠ "poisson") :
    reconstruction_loss M C x px_rate px_r px_dropout mode = none ∧
    (forwardResolved M C x llm llv b y mode).1 = none := by
  have hrl : ∀ a c d : Mat, reconstruction_loss M C x a c d mode = none := by
    intro a c d
    simp only [reconstruction_loss]
    rw [if_neg h1, if_neg h2, if_neg h3]
  refine ⟨hrl _ _ _, ?_⟩
  show reconstruction_loss M C x _ _ _ mode = none
  exact hrl _ _ _

/-- Witness for C8 at a model registering the kind "gaussian". -/
theorem reconstruction_loss_unknown_kind_witness :
    reconstruction_loss demoModelBadLoss demoCollab
        [[1, 2, 3]] [[1, 1, 1]] [[1, 1, 1]] [[0, 0, 0]] 0 = none ∧
    (forwardResolved demoModelBadLoss demoCollab [[1, 2, 3]] [0] [1] none none 0).1
      = none :=
  reconstruction_loss_unknown_kind demoModelBadLoss demoCollab
    [[1, 2, 3]] [[1, 1, 1]] [[1, 1, 1]] [[0, 0, 0]] [0] [1] none none 0
    (by decide) (by decide) (by decide)

/-- C9: `sample_from_posterior_l` performs no mode defaulting — an omitted
mode flows straight into `encode` where the `None` index raises, even when
exactly one dataset is registered; `sample_from_posterior_z` and `forward`
default to mode 0 in that same situation. -/
theorem sample_from_posterior_l_no_defaulting
    (M : JVAE) (C : Collab) (x : Mat) (d : Bool) :
    sample_from_posterior_l M C x none d
      = Except.error "TypeError: list indices must be integers, not NoneType" ∧
    (M.n_input_list.length = 1 →
       sample_from_posterior_z M C x none d
         = Except.ok (sampleZResolved M C x 0 d) ∧
       ∀ llm llv b y, forward M C x llm llv b y none
         = Except.ok (forwardResolved M C x llm llv b y 0)) := by
  refine ⟨rfl, fun h => ⟨?_, fun llm llv b y => ?_⟩⟩ <;>
    simp [sample_from_posterior_z, forward, h]

/-- Witness for C9: the single-dataset demo model still errors on
`sample_from_posterior_l` with an omitted mode while its
`sample_from_posterior_z` succeeds. -/
theorem sample_from_posterior_l_no_defaulting_witness :
    sample_from_posterior_l demoModelSingle demoCollab [[1, 2, 3]] none false
      = Except.error "TypeError: list indices must be integers, not NoneType" ∧
    sample_from_posterior_z demoModelSingle demoCollab [[1, 2, 3]] none false
      = Except.ok (sampleZResolved demoModelSingle demoCollab [[1, 2, 3]] 0 false) :=
  ⟨(sample_from_posterior_l_no_defaulting demoModelSingle demoCollab [[1, 2, 3]] false).1,
   ((sample_from_posterior_l_no_defaulting demoModelSingle demoCollab
      [[1, 2, 3]] false).2 rfl).1⟩

/-- C10: `get_sample_rate(x, batch_index, *_, **__)` ignores every extra
positional and keyword argument and equals
`sample_rate(x, 0, batch_index)` with the default sampling settings
(`y=None`, non-deterministic, `decode_mode=None`, i.e. decode through the
encode mode 0). -/
theorem get_sample_rate_delegates
    (M : JVAE) (C : Collab) (x : Mat) (b : Option (List Nat))
    (extras : List Mat) (kwargs : List (String × Mat)) :
    get_sample_rate M C x b extras kwargs
      = sample_rate M C x 0 b none false none := rfl

end JVAEModel
